import Mathlib

/-!
Verification of the dir2mcp ElevenLabs bridge (`bridge.py`).

The bridge is a small Flask application translating REST calls into
JSON-RPC tool calls against a dir2mcp server.  This file shallowly embeds
its components in Lean:

* a JSON value model (`Json`) with Python-faithful truthiness, `dict.get`
  semantics (`.get` on a non-dict raises `AttributeError`; the default is
  used only when the key is absent, not when its value is `None`);
* the session manager `_ensure_session` (the body runs under
  `_session_lock`, so any interleaving of concurrent callers is equivalent
  to a sequential ordering of atomic executions; we model exactly that
  sequentialisation, one upstream initialize response per call that
  actually performs the handshake);
* the request-id generator `_next_id` (same lock-based sequentialisation);
* the tool invoker `_call_tool` (given the HTTP response of its outbound
  POST; transport exceptions and session-establishment failures are the
  `raise` outcome);
* the `/search` and `/ask` route handlers, instrumented with a log of the
  tool calls they issue.  Session initialisation happens only inside
  `_call_tool`, so an empty log means the upstream is never contacted.

Modelling boundaries, stated once: JSON numbers are embedded as exact
rationals (Python floats are binary approximations; no claim depends on
the difference), Python `str()` of lists/dicts is abbreviated (no claim
exercises a container-valued file name), and a response body that is not
valid JSON is folded into the transport-exception outcome.
-/

namespace Bridge

/-- JSON values, as produced by `request.json` / `resp.json()`. -/
inductive Json where
  | null
  | bool (b : Bool)
  | num (q : ℚ)
  | str (s : String)
  | arr (elems : List Json)
  | obj (fields : List (String × Json))

/-- Python truthiness of a JSON-decoded value (`None`, `False`, `0`, `""`,
`[]` and `\x7b\x7d` are falsy). -/
def Json.truthy : Json → Bool
  | .null => false
  | .bool b => b
  | .num q => !(q == 0)
  | .str s => !(s == "")
  | .arr xs => !xs.isEmpty
  | .obj fs => !fs.isEmpty

/-- Python `x == "lit"` for a JSON-decoded `x`: true only when `x` is that
very string (numbers, lists, dicts and booleans never equal a `str`). -/
def Json.eqStr : Json → String → Bool
  | .str s, t => s == t
  | _, _ => false

/-- Whether the value is a JSON object (a Python `dict`). -/
def Json.isObj : Json → Bool
  | .obj _ => true
  | _ => false

/-- Exceptions the embedded code can raise.  The granularity is the
behaviour (request aborts with an uncaught exception), not the exact
Python class hierarchy. -/
inductive PyExc where
  | attributeError
  | typeError
  | keyError
  | httpError
  | transportError

/-- Python `d.get(k, default)`.  Only dicts have `.get`; the default is
returned only when the key is absent. -/
def dictGet : Json → String → Json → Except PyExc Json
  | .obj fs, k, d => .ok ((List.lookup k fs).getD d)
  | _, _, _ => .error .attributeError

/-- Total variant of `dictGet` for values already known to be dicts
(used in specification-side expressions); non-dicts yield the default. -/
def jGetD : Json → String → Json → Json
  | .obj fs, k, d => (List.lookup k fs).getD d
  | _, _, d => d

/-- Whether the first character list occurs at the start of the second. -/
def charsLeading : List Char → List Char → Bool
  | [], _ => true
  | _ :: _, [] => false
  | a :: as, b :: bs => a == b && charsLeading as bs

/-- Whether the first character list occurs contiguously anywhere in the
second (Python substring test). -/
def charsHasSub (needle : List Char) : List Char → Bool
  | [] => needle.isEmpty
  | c :: rest => charsLeading needle (c :: rest) || charsHasSub needle rest

/-- Python `"k" in x` for a JSON-decoded `x`: key test on dicts,
membership on lists, substring test on strings, `TypeError` otherwise. -/
def pyIn (k : String) : Json → Except PyExc Bool
  | .obj fs => .ok (List.lookup k fs).isSome
  | .arr xs => .ok (xs.any fun x => x.eqStr k)
  | .str s => .ok (charsHasSub k.data s.data)
  | _ => .error .typeError

/-- Python `x[k]` with a string key: dict lookup (`KeyError` when absent),
`TypeError` on anything else. -/
def pyIndex : Json → String → Except PyExc Json
  | .obj fs, k =>
    match List.lookup k fs with
    | some v => .ok v
    | none => .error .keyError
  | _, _ => .error .typeError

/-- Python `a or b`. -/
def pyOr (a b : Json) : Json := if a.truthy then a else b

/-- Python `str()` of a JSON-decoded value, as used in f-strings.  The
exact rendering of numbers and containers is abbreviated (no claim
depends on it); strings, the only case the routes exercise, are exact. -/
def pyStr : Json → String
  | .null => "None"
  | .bool true => "True"
  | .bool false => "False"
  | .num q => if q.den == 1 then toString q.num else toString q
  | .str s => s
  | .arr _ => "[...]"
  | .obj _ => "\x7b...\x7d"

/-! ## Session manager (`_ensure_session`)

The whole body runs with `_session_lock` held, so concurrent executions
serialize; the model is one atomic step per call.  The upstream initialize
response is abstracted to its HTTP status and optional `Mcp-Session-Id`
header (`requests` header lookup is case-insensitive; we model the lookup
result).  `resp.raise_for_status()` raises exactly for statuses in
[400, 600). -/

/-- Outcome of the outbound `initialize` POST: a transport-level exception,
or a response with a status and an optional session-id header. -/
inductive InitResp where
  | err
  | resp (status : Nat) (sessionHeader : Option String)

/-- Python truthiness of the `_session_id` global (`None` and `""` are
falsy). -/
def pyTruthyStr : Option String → Bool
  | none => false
  | some s => !s.isEmpty

/-- One atomic execution of `_ensure_session` under the lock: takes the
cached session and the initialize response this call would receive, and
returns the new cached session, the call's result (or raised exception),
and whether a handshake POST was actually sent. -/
def ensureSession (st : Option String) (up : InitResp) :
    Option String × Except PyExc String × Bool :=
  if pyTruthyStr st then (st, .ok (st.getD ""), false)
  else
    match up with
    | .err => (st, .error .transportError, true)
    | .resp status sid =>
      if 400 ≤ status ∧ status < 600 then (st, .error .httpError, true)
      else (some (sid.getD ""), .ok (sid.getD ""), true)

/-- A sequence of `_ensure_session` calls (the lock serializes them).
Each call is paired with the initialize response it would receive if it
performed the handshake.  Returns the final cached session, the per-call
results in order, and the total number of handshakes sent upstream. -/
def runEnsure : Option String → List InitResp → Option String × List (Except PyExc String) × Nat
  | st, [] => (st, [], 0)
  | st, up :: rest =>
    let step := ensureSession st up
    let tail := runEnsure step.1 rest
    (tail.1, step.2.1 :: tail.2.1, (if step.2.2 then 1 else 0) + tail.2.2)

/-- The initialize attempt fails: transport exception or non-success
HTTP status. -/
def initFails : InitResp → Prop
  | .err => True
  | .resp status _ => 400 ≤ status ∧ status < 600

/-! ## Request id generator (`_next_id`) -/

/-- One atomic execution of `_next_id` under `_id_lock`: increments the
shared counter and returns its new value. -/
def nextId (c : ℕ) : ℕ × ℕ := (c + 1, c + 1)

/-- A sequence of `n` `_next_id` calls (the lock serializes any
interleaving): final counter and the returned ids in issuance order. -/
def runNextIds : ℕ → ℕ → ℕ × List ℕ
  | c, 0 => (c, [])
  | c, n + 1 =>
    let p := nextId c
    let q := runNextIds p.1 n
    (q.1, p.2 :: q.2)

/-! ## Tool invoker (`_call_tool`)

`_call_tool` first runs `_ensure_session` (any exception there, and any
transport exception of its own POST, propagates: `CallOutcome.raise`),
then checks the HTTP status (`raise_for_status`), then decodes the JSON
body:

* `if "error" in data: return ({"error": data["error"]}, 500)` — a tuple;
* otherwise a dict `{"result": text, "structured": structuredContent}`
  where `text` joins with newlines the `"text"` field of the content
  entries whose `"type"` equals `"text"`, in returned order. -/

/-- The two shapes `_call_tool` can return: the `(payload, 500)` error
tuple, or the success dict carrying the joined text and the (possibly
`None`) structured content. -/
inductive PyRet where
  | tup (payload : Json)
  | dict (text : String) (structured : Json)

/-- What one `_call_tool` invocation sees from upstream: an exception
(transport failure, session-establishment failure, or unparsable body),
or an HTTP response with its status and decoded JSON body. -/
inductive CallOutcome where
  | raise
  | resp (status : Nat) (body : Json)

/-- The join `"\n".join(c.get("text", "") for c in content if
c.get("type") == "text")`, with Python's evaluation order: per entry the
`type` lookup runs first (raising on a non-dict entry), then the `text`
lookup, and a non-string item makes the join raise `TypeError`. -/
def extractTexts : List Json → Except PyExc (List String)
  | [] => .ok []
  | c :: cs =>
    match dictGet c "type" Json.null with
    | .error e => .error e
    | .ok ty =>
      if ty.eqStr "text" then
        match dictGet c "text" (Json.str "") with
        | .error e => .error e
        | .ok t =>
          match t with
          | .str s =>
            match extractTexts cs with
            | .ok rest => .ok (s :: rest)
            | .error e => .error e
          | _ => .error .typeError
      else extractTexts cs

/-- Decoding of a tool-call response body by `_call_tool` (after
`raise_for_status` passed).  A non-list `"content"` value cannot be
consumed by the join and raises. -/
def callToolBody (data : Json) : Except PyExc PyRet :=
  match pyIn "error" data with
  | .error e => .error e
  | .ok true =>
    match pyIndex data "error" with
    | .ok errVal => .ok (.tup errVal)
    | .error e => .error e
  | .ok false =>
    match dictGet data "result" (Json.obj []) with
    | .error e => .error e
    | .ok result =>
      match dictGet result "content" (Json.arr []) with
      | .error e => .error e
      | .ok contentJ =>
        match contentJ with
        | .arr cs =>
          (match extractTexts cs with
           | .error e => .error e
           | .ok ts =>
             match dictGet result "structuredContent" Json.null with
             | .error e => .error e
             | .ok s => .ok (.dict (String.intercalate "\n" ts) s))
        | _ => .error .typeError

/-- One `_call_tool` invocation given its upstream outcome:
`raise_for_status` raises for statuses in [400, 600), then the body is
decoded. -/
def callToolRun : CallOutcome → Except PyExc PyRet
  | .raise => .error .transportError
  | .resp status body =>
    if 400 ≤ status ∧ status < 600 then .error .httpError else callToolBody body

/-- Whether a `_call_tool` invocation returns normally (tuple or dict)
rather than raising. -/
def outOkB (o : CallOutcome) : Bool :=
  match callToolRun o with
  | .ok _ => true
  | .error _ => false

/-! ## Enrichment pipeline and routes

Each route is a function of the parsed inbound body (`request.json`, with
JSON `null` for an absent/null body; Flask's own rejection of
syntactically invalid bodies is outside the bridge) and of the list of
upstream outcomes its `_call_tool` invocations consume in order.  The
second component of the result is the log of tool calls issued,
as (tool name, arguments) pairs. -/

/-- Building the `open_file` argument dict from the hit's `Span` value:
`rel_path` and `max_chars: 3000` always, plus `start_line`/`end_line`
(defaults 1 and 100) exactly when `span.get("Kind") == "lines"`.
Raises when `span` is not a dict (e.g. an explicit `null` Span). -/
def mkArgs (rel span : Json) : Except PyExc Json :=
  match dictGet span "Kind" Json.null with
  | .error e => .error e
  | .ok kind =>
    if kind.eqStr "lines" then
      match dictGet span "StartLine" (Json.num 1), dictGet span "EndLine" (Json.num 100) with
      | .ok sl, .ok el =>
        .ok (Json.obj [("rel_path", rel), ("max_chars", Json.num 3000),
          ("start_line", sl), ("end_line", el)])
      | .error e, _ => .error e
      | _, .error e => .error e
    else .ok (Json.obj [("rel_path", rel), ("max_chars", Json.num 3000)])

/-- An enriched hit of the `/search` route: the dict
`{"file": rel_path, "score": h.get("Score", 0), "content": text}`. -/
structure Enr where
  file : Json
  score : Json
  content : String

/-- The `/search` enrichment loop over `hits[:3]`: per hit, read
`RelPath` and `Span`, build the `open_file` arguments, invoke the tool
(consuming the next outcome), and keep the returned text — or the empty
string when the tool returned the error tuple.  An exception anywhere
propagates, keeping the log of calls already made. -/
def enrichSearch : List Json → List CallOutcome → Except PyExc (List Enr) × List (String × Json)
  | [], _ => (.ok [], [])
  | h :: hs, outs =>
    match dictGet h "RelPath" (Json.str "") with
    | .error e => (.error e, [])
    | .ok rel =>
      match dictGet h "Span" (Json.obj []) with
      | .error e => (.error e, [])
      | .ok span =>
        match mkArgs rel span with
        | .error e => (.error e, [])
        | .ok args =>
          match callToolRun (outs.headD .raise) with
          | .error e => (.error e, [("dir2mcp.open_file", args)])
          | .ok ret =>
            match dictGet h "Score" (Json.num 0) with
            | .error e => (.error e, [("dir2mcp.open_file", args)])
            | .ok sc =>
              let text : String :=
                match ret with
                | .dict t _ => t
                | .tup _ => ""
              let rest := enrichSearch hs outs.tail
              ((match rest.1 with
                | .error e => .error e
                | .ok res => .ok (⟨rel, sc, text⟩ :: res)),
               ("dir2mcp.open_file", args) :: rest.2)

/-- The `/ask` enrichment loop: identical calls, but the enriched record
keeps only file and content. -/
def enrichAsk : List Json → List CallOutcome → Except PyExc (List (Json × String)) × List (String × Json)
  | [], _ => (.ok [], [])
  | h :: hs, outs =>
    match dictGet h "RelPath" (Json.str "") with
    | .error e => (.error e, [])
    | .ok rel =>
      match dictGet h "Span" (Json.obj []) with
      | .error e => (.error e, [])
      | .ok span =>
        match mkArgs rel span with
        | .error e => (.error e, [])
        | .ok args =>
          match callToolRun (outs.headD .raise) with
          | .error e => (.error e, [("dir2mcp.open_file", args)])
          | .ok ret =>
            let text : String :=
              match ret with
              | .dict t _ => t
              | .tup _ => ""
            let rest := enrichAsk hs outs.tail
            ((match rest.1 with
              | .error e => .error e
              | .ok res => .ok ((rel, text) :: res)),
             ("dir2mcp.open_file", args) :: rest.2)

/-- Round `n * 100 / d` (for `d > 0`) to the nearest integer, ties to
even — the rounding of Python's `format(x, ".0%")` idealised over the
exact rational `n / d`.  Computed on the numerator and denominator with
integer arithmetic. -/
def roundHalfEvenScaled (n d : ℤ) : ℤ :=
  let t := n * 100
  let fl := Int.fdiv t d
  let r := t - fl * d
  if 2 * r < d then fl
  else if d < 2 * r then fl + 1
  else if fl % 2 = 0 then fl else fl + 1

/-- Python `format(x, ".0%")`: multiply by 100, round to an integer,
append the percent sign.  Booleans are `int` subclasses in Python; other
non-numbers make the format raise. -/
def formatPct : Json → Except PyExc String
  | .num q => .ok (toString (roundHalfEvenScaled q.num (q.den : ℤ)) ++ "%")
  | .bool b => .ok (if b then "100%" else "0%")
  | _ => .error .typeError

/-- One `/search` summary block:
`=== file (relevance: pct) ===` + newline + content. -/
def blockOfSearch (e : Enr) : Except PyExc String :=
  match formatPct e.score with
  | .ok p => .ok ("=== " ++ pyStr e.file ++ " (relevance: " ++ p ++ ") ===\n" ++ e.content)
  | .error x => .error x

/-- The `/search` block list, formatted in order; the first failing block
raises (the join consumes the generator lazily). -/
def blocksOfSearch : List Enr → Except PyExc (List String)
  | [] => .ok []
  | e :: es =>
    match blockOfSearch e with
    | .error x => .error x
    | .ok b =>
      match blocksOfSearch es with
      | .ok bs => .ok (b :: bs)
      | .error x => .error x

/-- The `/search` summary string: blocks joined by a blank line. -/
def summaryOfSearch (es : List Enr) : Except PyExc String :=
  match blocksOfSearch es with
  | .ok bs => .ok (String.intercalate "\n\n" bs)
  | .error x => .error x

/-- One `/ask` context block: `=== Source: file ===` + newline + content
(total: no score formatting is involved). -/
def blockOfAsk (e : Json × String) : String :=
  "=== Source: " ++ pyStr e.1 ++ " ===\n" ++ e.2

/-- The `/ask` context string: blocks joined by a blank line. -/
def contextOfAsk (es : List (Json × String)) : String :=
  String.intercalate "\n\n" (es.map blockOfAsk)

/-- The `POST /search` handler: validate `query`, call `dir2mcp.search`
with `{query, k: body.get("k", 3)}`, propagate an error tuple as HTTP
500, otherwise read `structured["hits"]` (raising when the structured
payload is `None` or not a dict), enrich `hits[:3]`, and return the
summary with HTTP 200. -/
def searchRoute (input : Json) (ups : List CallOutcome) :
    Except PyExc (Json × Nat) × List (String × Json) :=
  let body := pyOr input (Json.obj [])
  match dictGet body "query" (Json.str "") with
  | .error e => (.error e, [])
  | .ok query =>
    if query.truthy then
      match dictGet body "k" (Json.num 3) with
      | .error e => (.error e, [])
      | .ok kv =>
        let log0 : List (String × Json) :=
          [("dir2mcp.search", Json.obj [("query", query), ("k", kv)])]
        match callToolRun (ups.headD .raise) with
        | .error e => (.error e, log0)
        | .ok (.tup payload) => (.ok (Json.obj [("error", payload)], 500), log0)
        | .ok (.dict _ structured) =>
          match dictGet structured "hits" (Json.arr []) with
          | .error e => (.error e, log0)
          | .ok hitsJ =>
            match hitsJ with
            | .arr hs =>
              let p := enrichSearch (hs.take 3) ups.tail
              ((match p.1 with
                | .error e => .error e
                | .ok enr =>
                  match summaryOfSearch enr with
                  | .error e => .error e
                  | .ok s => .ok (Json.obj [("result", Json.str s)], 200)),
               log0 ++ p.2)
            | _ => (.error .typeError, log0)
    else (.ok (Json.obj [("error", Json.str "query is required")], 400), [])

/-- The `POST /ask` handler: validate `question`, call `dir2mcp.search`
with `{query: question, k: 3}` (the inbound body cannot override `k`),
propagate an error tuple as HTTP 500, otherwise enrich `hits[:3]` and
return `Question: ...` followed by the context, with HTTP 200. -/
def askRoute (input : Json) (ups : List CallOutcome) :
    Except PyExc (Json × Nat) × List (String × Json) :=
  let body := pyOr input (Json.obj [])
  match dictGet body "question" (Json.str "") with
  | .error e => (.error e, [])
  | .ok question =>
    if question.truthy then
      let log0 : List (String × Json) :=
        [("dir2mcp.search", Json.obj [("query", question), ("k", Json.num 3)])]
      match callToolRun (ups.headD .raise) with
      | .error e => (.error e, log0)
      | .ok (.tup payload) => (.ok (Json.obj [("error", payload)], 500), log0)
      | .ok (.dict _ structured) =>
        match dictGet structured "hits" (Json.arr []) with
        | .error e => (.error e, log0)
        | .ok hitsJ =>
          match hitsJ with
          | .arr hs =>
            let p := enrichAsk (hs.take 3) ups.tail
            ((match p.1 with
              | .error e => .error e
              | .ok enr =>
                .ok (Json.obj [("result", Json.str ("Question: " ++ pyStr question
                  ++ "\n\nRelevant document content:\n\n" ++ contextOfAsk enr))], 200)),
             log0 ++ p.2)
          | _ => (.error .typeError, log0)
    else (.ok (Json.obj [("error", Json.str "question is required")], 400), [])

/-! ## Specification-side total functions

Used in theorem statements to describe the behaviour on well-formed
inputs in a direct, non-monadic form. -/

/-- A hit over which the enrichment loop is exception-free: a dict whose
`Span`, when present, is a dict, and whose `Score`, when present, is a
number (so the relevance format cannot raise). -/
def hitOkB : Json → Bool
  | .obj fs =>
    (match List.lookup "Span" fs with
     | none => true
     | some (.obj _) => true
     | some _ => false) &&
    (match List.lookup "Score" fs with
     | none => true
     | some (.num _) => true
     | some _ => false)
  | _ => false

/-- Total form of `mkArgs` for a dict (or defaulted) span. -/
def mkArgsTotal (rel span : Json) : Json :=
  if (jGetD span "Kind" Json.null).eqStr "lines" then
    Json.obj [("rel_path", rel), ("max_chars", Json.num 3000),
      ("start_line", jGetD span "StartLine" (Json.num 1)),
      ("end_line", jGetD span "EndLine" (Json.num 100))]
  else Json.obj [("rel_path", rel), ("max_chars", Json.num 3000)]

/-- The `open_file` argument dict the loop builds for a well-formed hit. -/
def argsOf (h : Json) : Json :=
  mkArgsTotal (jGetD h "RelPath" (Json.str "")) (jGetD h "Span" (Json.obj []))

/-- The content the loop keeps for one hit, as a function of that hit's
`open_file` outcome: the decoded text on success, the empty string when
the tool returned the error tuple. -/
def textOfOut (o : CallOutcome) : String :=
  match callToolRun o with
  | .ok (.dict t _) => t
  | _ => ""

/-- The enriched record the `/search` loop produces for one well-formed
hit and its `open_file` outcome. -/
def enrOf (h : Json) (o : CallOutcome) : Enr :=
  ⟨jGetD h "RelPath" (Json.str ""), jGetD h "Score" (Json.num 0), textOfOut o⟩

/-- Total form of the percentage rendering for a numeric (or boolean)
score. -/
def pctStr : Json → String
  | .num q => toString (roundHalfEvenScaled q.num (q.den : ℤ)) ++ "%"
  | .bool b => if b then "100%" else "0%"
  | _ => ""

/-- Total form of one `/search` block for a well-formed enriched hit. -/
def blockStr (e : Enr) : String :=
  "=== " ++ pyStr e.file ++ " (relevance: " ++ pctStr e.score ++ ") ===\n" ++ e.content

/-- A score value the relevance format cannot raise on (number, or a
boolean — an `int` subclass in Python). -/
def scoreOkB : Json → Bool
  | .num _ => true
  | .bool _ => true
  | _ => false

/-- The enriched record the `/ask` loop produces for one well-formed hit
and its `open_file` outcome. -/
def askEnrOf (h : Json) (o : CallOutcome) : Json × String :=
  (jGetD h "RelPath" (Json.str ""), textOfOut o)

/-- A content entry the textual-extraction join cannot raise on: a dict
whose `text` field, when its `type` is `"text"`, is absent or a string. -/
def entryOk : Json → Bool
  | .obj fs =>
    match List.lookup "type" fs with
    | some (Json.str "text") =>
      (match List.lookup "text" fs with
       | none => true
       | some (Json.str _) => true
       | some _ => false)
    | _ => true
  | _ => false

/-- Direct filter-and-map reading of the textual extraction: the `text`
fields (default `""`) of exactly the entries flagged `type == "text"`,
in returned order. -/
def textsSpec (cs : List Json) : List String :=
  (cs.filter fun c => (jGetD c "type" Json.null).eqStr "text").map fun c =>
    match jGetD c "text" (Json.str "") with
    | .str s => s
    | _ => ""

/-! ## Helper lemmas -/

@[simp] theorem dictGet_obj (fs : List (String × Json)) (k : String) (d : Json) :
    dictGet (Json.obj fs) k d = .ok ((List.lookup k fs).getD d) := rfl

@[simp] theorem jGetD_obj (fs : List (String × Json)) (k : String) (d : Json) :
    jGetD (Json.obj fs) k d = (List.lookup k fs).getD d := rfl

@[simp] theorem runEnsure_nil (st : Option String) : runEnsure st [] = (st, [], 0) := rfl

theorem pyTruthyStr_ne (s : String) (hs : s ≠ "") : pyTruthyStr (some s) = true := by
  have hie : s.isEmpty = false := by
    cases h : s.isEmpty with
    | false => rfl
    | true => exact absurd ((String.isEmpty_iff s).mp h) hs
  simp [pyTruthyStr, hie]

theorem runEnsure_cached (s : String) (hs : s ≠ "") (ups : List InitResp) :
    runEnsure (some s) ups = (some s, List.replicate ups.length (Except.ok s), 0) := by
  induction ups with
  | nil => simp
  | cons up rest ih =>
    simp [runEnsure, ensureSession, pyTruthyStr_ne s hs, ih, List.replicate_succ]

theorem ensureSession_unset_sends (up : InitResp) :
    (ensureSession none up).2.2 = true := by
  cases up with
  | err => rfl
  | resp status sid =>
    unfold ensureSession
    rw [if_neg (by decide)]
    split <;> first | rfl | (split <;> rfl)

theorem ensureSession_emptyStr_sends (up : InitResp) :
    (ensureSession (some "") up).2.2 = true := by
  cases up with
  | err => rfl
  | resp status sid =>
    unfold ensureSession
    rw [if_neg (by decide)]
    split <;> first | rfl | (split <;> rfl)

theorem ensureSession_none_ok (status : Nat) (sid : Option String) (hst : status < 400) :
    ensureSession none (InitResp.resp status sid)
      = (some (sid.getD ""), Except.ok (sid.getD ""), true) := by
  have hc : ¬(400 ≤ status ∧ status < 600) := by omega
  simp [ensureSession, pyTruthyStr, hc]

theorem runNextIds_snd (c n : ℕ) :
    (runNextIds c n).2 = (List.range n).map fun i => c + 1 + i := by
  induction n generalizing c with
  | zero => rfl
  | succ n ih =>
    show (c + 1) :: (runNextIds (c + 1) n).2 = _
    rw [ih, List.range_succ_eq_map, List.map_cons, List.map_map]
    exact congrArg₂ List.cons (by omega)
      (List.map_congr_left fun i _ => by simp only [Function.comp_apply]; omega)

theorem extractTexts_all (cs : List Json) (h : cs.all entryOk = true) :
    extractTexts cs = .ok (textsSpec cs) := by
  induction cs with
  | nil => rfl
  | cons c cs ih =>
    rw [List.all_cons, Bool.and_eq_true] at h
    obtain ⟨hc, hcs⟩ := h
    have ihe := ih hcs
    obtain ⟨fs, rfl⟩ : ∃ fs, c = Json.obj fs := by
      cases c <;> first | exact ⟨_, rfl⟩ | simp [entryOk] at hc
    cases hty : ((List.lookup "type" fs).getD Json.null).eqStr "text" with
    | false =>
      rw [show extractTexts (Json.obj fs :: cs) = extractTexts cs from by
            simp [extractTexts, hty],
          show textsSpec (Json.obj fs :: cs) = textsSpec cs from by
            simp [textsSpec, List.filter_cons, hty],
          ihe]
    | true =>
      have hstr : ∃ s, (List.lookup "text" fs).getD (Json.str "") = Json.str s := by
        have hlk : List.lookup "type" fs = some (Json.str "text") := by
          rcases hl : List.lookup "type" fs with _ | v
          · rw [hl] at hty; simp [Json.eqStr] at hty
          · rw [hl] at hty
            cases v <;> simp_all [Json.eqStr]
        simp only [entryOk, hlk] at hc
        rcases hlt : List.lookup "text" fs with _ | w
        · exact ⟨"", rfl⟩
        · rw [hlt] at hc
          cases w <;> first | exact ⟨_, rfl⟩ | simp_all
      obtain ⟨s, hsv⟩ := hstr
      rw [show extractTexts (Json.obj fs :: cs)
            = match extractTexts cs with
              | .ok rest => .ok (s :: rest)
              | .error e => .error e from by simp [extractTexts, hty, hsv],
          ihe]
      simp [textsSpec, List.filter_cons, hty, hsv]

theorem dictGet_pyOr_obj (bf : List (String × Json)) (k : String) (d : Json) :
    dictGet (pyOr (Json.obj bf) (Json.obj [])) k d = .ok ((List.lookup k bf).getD d) := by
  cases bf with
  | nil => rfl
  | cons p ps => rfl

theorem mkArgs_span_obj (rel : Json) (sfs : List (String × Json)) :
    mkArgs rel (Json.obj sfs) = .ok (mkArgsTotal rel (Json.obj sfs)) := by
  simp only [mkArgs, mkArgsTotal, dictGet_obj, jGetD_obj]
  split <;> rfl

theorem hitOk_parts (fs : List (String × Json)) (hh : hitOkB (Json.obj fs) = true) :
    (∃ sfs, (List.lookup "Span" fs).getD (Json.obj []) = Json.obj sfs)
    ∧ (∃ q, (List.lookup "Score" fs).getD (Json.num 0) = Json.num q) := by
  simp only [hitOkB, Bool.and_eq_true] at hh
  obtain ⟨h1, h2⟩ := hh
  constructor
  · rcases hl : List.lookup "Span" fs with _ | v
    · exact ⟨[], rfl⟩
    · rw [hl] at h1
      cases v <;> first | exact ⟨_, rfl⟩ | simp_all
  · rcases hl : List.lookup "Score" fs with _ | v
    · exact ⟨0, rfl⟩
    · rw [hl] at h2
      cases v <;> first | exact ⟨_, rfl⟩ | simp_all

theorem formatPct_ok (s : Json) (hs : scoreOkB s = true) :
    formatPct s = .ok (pctStr s) := by
  cases s <;> first | rfl | simp [scoreOkB] at hs

theorem score_of_hitOk (h : Json) (o : CallOutcome) (hh : hitOkB h = true) :
    scoreOkB (enrOf h o).score = true := by
  obtain ⟨fs, rfl⟩ : ∃ fs, h = Json.obj fs := by
    cases h <;> first | exact ⟨_, rfl⟩ | simp [hitOkB] at hh
  obtain ⟨_, q, hq⟩ := hitOk_parts fs hh
  simp [enrOf, hq, scoreOkB]

theorem zip_scores_ok : ∀ (hs : List Json) (outs : List CallOutcome),
    hs.all hitOkB = true →
    ((List.zipWith enrOf hs outs).all fun e => scoreOkB e.score) = true
  | [], _, _ => rfl
  | _ :: _, [], _ => rfl
  | h :: hs, o :: outs, hh => by
    rw [List.all_cons, Bool.and_eq_true] at hh
    obtain ⟨h1, h2⟩ := hh
    rw [List.zipWith_cons_cons, List.all_cons, Bool.and_eq_true]
    exact ⟨score_of_hitOk h o h1, zip_scores_ok hs outs h2⟩

theorem blocksOfSearch_eq : ∀ es : List Enr,
    (es.all fun e => scoreOkB e.score) = true →
    blocksOfSearch es = .ok (es.map blockStr)
  | [], _ => rfl
  | e :: es, h => by
    rw [List.all_cons, Bool.and_eq_true] at h
    obtain ⟨h1, h2⟩ := h
    have hb : blockOfSearch e = .ok (blockStr e) := by
      unfold blockOfSearch blockStr
      rw [formatPct_ok e.score h1]
    simp [blocksOfSearch, hb, blocksOfSearch_eq es h2]

theorem summaryOfSearch_eq (es : List Enr)
    (h : (es.all fun e => scoreOkB e.score) = true) :
    summaryOfSearch es = .ok (String.intercalate "\n\n" (es.map blockStr)) := by
  simp [summaryOfSearch, blocksOfSearch_eq es h]

theorem textOfOut_tup (o : CallOutcome) (p : Json) (hr : callToolRun o = .ok (.tup p)) :
    textOfOut o = "" := by
  unfold textOfOut
  rw [hr]

theorem textOfOut_dict (o : CallOutcome) (t : String) (s : Json)
    (hr : callToolRun o = .ok (.dict t s)) :
    textOfOut o = t := by
  unfold textOfOut
  rw [hr]

theorem enrichSearch_eq : ∀ (hs : List Json) (outs : List CallOutcome),
    hs.all hitOkB = true →
    hs.length ≤ outs.length →
    (outs.take hs.length).all outOkB = true →
    enrichSearch hs outs
      = (.ok (List.zipWith enrOf hs outs),
         hs.map fun h => ("dir2mcp.open_file", argsOf h))
  | [], outs, _, _, _ => by simp [enrichSearch]
  | h :: hs, [], _, hlen, _ => by simp at hlen
  | h :: hs, o :: outs, hh, hlen, ho => by
    rw [List.all_cons, Bool.and_eq_true] at hh
    obtain ⟨hhh, hht⟩ := hh
    obtain ⟨fs, rfl⟩ : ∃ fs, h = Json.obj fs := by
      cases h <;> first | exact ⟨_, rfl⟩ | simp [hitOkB] at hhh
    obtain ⟨⟨sfs, hspan⟩, _⟩ := hitOk_parts fs hhh
    rw [List.length_cons, List.take_succ_cons, List.all_cons, Bool.and_eq_true] at ho
    obtain ⟨ho1, ho2⟩ := ho
    obtain ⟨ret, hret⟩ : ∃ r, callToolRun o = .ok r := by
      rcases hr : callToolRun o with e | r
      · rw [outOkB, hr] at ho1; simp at ho1
      · exact ⟨r, rfl⟩
    have hargs : mkArgs ((List.lookup "RelPath" fs).getD (Json.str ""))
        ((List.lookup "Span" fs).getD (Json.obj []))
        = .ok (argsOf (Json.obj fs)) := by
      rw [hspan, mkArgs_span_obj]
      unfold argsOf
      rw [jGetD_obj, jGetD_obj, hspan]
    have ih := enrichSearch_eq hs outs hht (by simpa using hlen) ho2
    cases ret with
    | tup p =>
      simp only [enrichSearch, dictGet_obj, hargs, List.headD_cons, hret, List.tail_cons, ih,
        List.zipWith_cons_cons, List.map_cons]
      simp [enrOf, textOfOut_tup o p hret]
    | dict t sv =>
      simp only [enrichSearch, dictGet_obj, hargs, List.headD_cons, hret, List.tail_cons, ih,
        List.zipWith_cons_cons, List.map_cons]
      simp [enrOf, textOfOut_dict o t sv hret]

theorem enrichAsk_eq : ∀ (hs : List Json) (outs : List CallOutcome),
    hs.all hitOkB = true →
    hs.length ≤ outs.length →
    (outs.take hs.length).all outOkB = true →
    enrichAsk hs outs
      = (.ok (List.zipWith askEnrOf hs outs),
         hs.map fun h => ("dir2mcp.open_file", argsOf h))
  | [], outs, _, _, _ => by simp [enrichAsk]
  | h :: hs, [], _, hlen, _ => by simp at hlen
  | h :: hs, o :: outs, hh, hlen, ho => by
    rw [List.all_cons, Bool.and_eq_true] at hh
    obtain ⟨hhh, hht⟩ := hh
    obtain ⟨fs, rfl⟩ : ∃ fs, h = Json.obj fs := by
      cases h <;> first | exact ⟨_, rfl⟩ | simp [hitOkB] at hhh
    obtain ⟨⟨sfs, hspan⟩, _⟩ := hitOk_parts fs hhh
    rw [List.length_cons, List.take_succ_cons, List.all_cons, Bool.and_eq_true] at ho
    obtain ⟨ho1, ho2⟩ := ho
    obtain ⟨ret, hret⟩ : ∃ r, callToolRun o = .ok r := by
      rcases hr : callToolRun o with e | r
      · rw [outOkB, hr] at ho1; simp at ho1
      · exact ⟨r, rfl⟩
    have hargs : mkArgs ((List.lookup "RelPath" fs).getD (Json.str ""))
        ((List.lookup "Span" fs).getD (Json.obj []))
        = .ok (argsOf (Json.obj fs)) := by
      rw [hspan, mkArgs_span_obj]
      unfold argsOf
      rw [jGetD_obj, jGetD_obj, hspan]
    have ih := enrichAsk_eq hs outs hht (by simpa using hlen) ho2
    cases ret with
    | tup p =>
      simp only [enrichAsk, dictGet_obj, hargs, List.headD_cons, hret, List.tail_cons, ih,
        List.zipWith_cons_cons, List.map_cons]
      simp [askEnrOf, textOfOut_tup o p hret]
    | dict t sv =>
      simp only [enrichAsk, dictGet_obj, hargs, List.headD_cons, hret, List.tail_cons, ih,
        List.zipWith_cons_cons, List.map_cons]
      simp [askEnrOf, textOfOut_dict o t sv hret]

theorem searchRoute_success (bf sf : List (String × Json)) (tx : String)
    (hs : List Json) (outs : List CallOutcome)
    (hq : ((List.lookup "query" bf).getD (Json.str "")).truthy = true)
    (hsr : callToolRun (outs.headD .raise) = .ok (.dict tx (Json.obj sf)))
    (hhits : (List.lookup "hits" sf).getD (Json.arr []) = Json.arr hs)
    (hh : (hs.take 3).all hitOkB = true)
    (hlen : (hs.take 3).length ≤ outs.tail.length)
    (ho : (outs.tail.take (hs.take 3).length).all outOkB = true) :
    searchRoute (Json.obj bf) outs
      = (.ok (Json.obj [("result", Json.str (String.intercalate "\n\n"
            ((List.zipWith enrOf (hs.take 3) outs.tail).map blockStr)))], 200),
         ("dir2mcp.search", Json.obj
            [("query", (List.lookup "query" bf).getD (Json.str "")),
             ("k", (List.lookup "k" bf).getD (Json.num 3))])
           :: (hs.take 3).map fun h => ("dir2mcp.open_file", argsOf h)) := by
  cases outs with
  | nil => simp [callToolRun] at hsr
  | cons o rest =>
    rw [List.headD_cons] at hsr
    rw [List.tail_cons] at hlen ho ⊢
    have henr := enrichSearch_eq (hs.take 3) rest hh hlen ho
    have hsum := summaryOfSearch_eq (List.zipWith enrOf (hs.take 3) rest)
      (zip_scores_ok (hs.take 3) rest hh)
    simp [searchRoute, dictGet_pyOr_obj, hq, hsr, hhits, henr, hsum]

theorem askRoute_success (af sf : List (String × Json)) (tx : String)
    (hs : List Json) (outs : List CallOutcome)
    (hq : ((List.lookup "question" af).getD (Json.str "")).truthy = true)
    (hsr : callToolRun (outs.headD .raise) = .ok (.dict tx (Json.obj sf)))
    (hhits : (List.lookup "hits" sf).getD (Json.arr []) = Json.arr hs)
    (hh : (hs.take 3).all hitOkB = true)
    (hlen : (hs.take 3).length ≤ outs.tail.length)
    (ho : (outs.tail.take (hs.take 3).length).all outOkB = true) :
    askRoute (Json.obj af) outs
      = (.ok (Json.obj [("result", Json.str ("Question: "
            ++ pyStr ((List.lookup "question" af).getD (Json.str ""))
            ++ "\n\nRelevant document content:\n\n"
            ++ contextOfAsk (List.zipWith askEnrOf (hs.take 3) outs.tail)))], 200),
         ("dir2mcp.search", Json.obj
            [("query", (List.lookup "question" af).getD (Json.str "")),
             ("k", Json.num 3)])
           :: (hs.take 3).map fun h => ("dir2mcp.open_file", argsOf h)) := by
  cases outs with
  | nil => simp [callToolRun] at hsr
  | cons o rest =>
    rw [List.headD_cons] at hsr
    rw [List.tail_cons] at hlen ho ⊢
    have henr := enrichAsk_eq (hs.take 3) rest hh hlen ho
    simp [askRoute, dictGet_pyOr_obj, hq, hsr, hhits, henr]

theorem searchRoute_log_head (bf : List (String × Json)) (outs : List CallOutcome)
    (hq : ((List.lookup "query" bf).getD (Json.str "")).truthy = true) :
    (searchRoute (Json.obj bf) outs).2.head?
      = some ("dir2mcp.search", Json.obj
          [("query", (List.lookup "query" bf).getD (Json.str "")),
           ("k", (List.lookup "k" bf).getD (Json.num 3))]) := by
  cases outs with
  | nil => simp [searchRoute, dictGet_pyOr_obj, hq, callToolRun]
  | cons o rest =>
    cases hcr : callToolRun o with
    | error e => simp [searchRoute, dictGet_pyOr_obj, hq, hcr]
    | ok ret =>
      cases ret with
      | tup p => simp [searchRoute, dictGet_pyOr_obj, hq, hcr]
      | dict t sv =>
        cases hd : dictGet sv "hits" (Json.arr []) with
        | error e => simp [searchRoute, dictGet_pyOr_obj, hq, hcr, hd]
        | ok hitsJ => cases hitsJ <;> simp [searchRoute, dictGet_pyOr_obj, hq, hcr, hd]

theorem askRoute_log_head (af : List (String × Json)) (outs : List CallOutcome)
    (hq : ((List.lookup "question" af).getD (Json.str "")).truthy = true) :
    (askRoute (Json.obj af) outs).2.head?
      = some ("dir2mcp.search", Json.obj
          [("query", (List.lookup "question" af).getD (Json.str "")),
           ("k", Json.num 3)]) := by
  cases outs with
  | nil => simp [askRoute, dictGet_pyOr_obj, hq, callToolRun]
  | cons o rest =>
    cases hcr : callToolRun o with
    | error e => simp [askRoute, dictGet_pyOr_obj, hq, hcr]
    | ok ret =>
      cases ret with
      | tup p => simp [askRoute, dictGet_pyOr_obj, hq, hcr]
      | dict t sv =>
        cases hd : dictGet sv "hits" (Json.arr []) with
        | error e => simp [askRoute, dictGet_pyOr_obj, hq, hcr, hd]
        | ok hitsJ => cases hitsJ <;> simp [askRoute, dictGet_pyOr_obj, hq, hcr, hd]

/-! ## Claim theorems -/

/-- C1: the `_ensure_session` body holds `_session_lock` throughout, so
any set of concurrent callers is equivalent to a sequential ordering of
atomic executions, which is what `runEnsure` models (mutual exclusion —
at most one handshake in flight at a time — is the lock itself).  When
the first caller's handshake succeeds with a (non-empty) session id,
exactly one `initialize` handshake is sent over the whole trace, every
caller observes that same cached id, and the final cached state is that
id; and a failed handshake leaves the session unset, so the next caller
sends the handshake again. -/
theorem session_single_handshake (status : Nat) (sid : String) (rest : List InitResp)
    (hst : status < 400) (hsid : sid ≠ "") :
    (runEnsure none (InitResp.resp status (some sid) :: rest)).2.2 = 1
    ∧ (runEnsure none (InitResp.resp status (some sid) :: rest)).2.1
        = List.replicate (rest.length + 1) (Except.ok sid)
    ∧ (runEnsure none (InitResp.resp status (some sid) :: rest)).1 = some sid
    ∧ ∀ up up2, initFails up →
        (ensureSession none up).1 = none
        ∧ (ensureSession (ensureSession none up).1 up2).2.2 = true := by
  have hstep : ensureSession none (InitResp.resp status (some sid))
      = (some sid, Except.ok sid, true) := ensureSession_none_ok status (some sid) hst
  have hrest := runEnsure_cached sid hsid rest
  refine ⟨?_, ?_, ?_, ?_⟩
  · simp [runEnsure, hstep, hrest]
  · simp [runEnsure, hstep, hrest, List.replicate_succ]
  · simp [runEnsure, hstep, hrest]
  · intro up up2 hf
    have hstate : (ensureSession none up).1 = none := by
      cases up with
      | err => rfl
      | resp s h =>
        rcases hf with ⟨h1, h2⟩
        simp [ensureSession, pyTruthyStr, h1, h2]
    exact ⟨hstate, by rw [hstate]; exact ensureSession_unset_sends up2⟩

/-- C1 witness: two racing callers, the first handshake succeeding with
id `s1`: one handshake total, both callers observe `s1` (the second
caller's would-be response carrying `s2` is never requested). -/
theorem session_single_handshake_witness :
    (runEnsure none [InitResp.resp 200 (some "s1"), InitResp.resp 201 (some "s2")]).2.2 = 1
    ∧ (runEnsure none [InitResp.resp 200 (some "s1"), InitResp.resp 201 (some "s2")]).2.1
        = List.replicate 2 (Except.ok "s1")
    ∧ (runEnsure none [InitResp.resp 200 (some "s1"), InitResp.resp 201 (some "s2")]).1
        = some "s1"
    ∧ ∀ up up2, initFails up →
        (ensureSession none up).1 = none
        ∧ (ensureSession (ensureSession none up).1 up2).2.2 = true :=
  session_single_handshake 200 "s1" [InitResp.resp 201 (some "s2")]
    (by decide) (by decide)

/-- C5 counterexample: a 2xx initialize response that carries no
`Mcp-Session-Id` header does not fail with a `ProtocolError` — the code
stores the empty string as the session and returns it successfully. -/
theorem ensure_session_no_header_cex :
    ensureSession none (InitResp.resp 200 none) = (some "", Except.ok "", true) := rfl

/-- C5 amended: `_ensure_session` raises when the transport call errors
or the response status is non-success, leaving the session unset; a
success response without a session identifier header does not fail — the
empty string is stored and returned, and being falsy it counts as unset,
so a later call performs the handshake again. -/
theorem ensure_session_failure_modes (up : InitResp) (hf : initFails up)
    (status : Nat) (hs2 : status < 400) :
    (ensureSession none up).1 = none
    ∧ (∃ e, (ensureSession none up).2.1 = .error e)
    ∧ (ensureSession none up).2.2 = true
    ∧ ensureSession none (InitResp.resp status none) = (some "", Except.ok "", true)
    ∧ pyTruthyStr (some "") = false
    ∧ ∀ up2, (ensureSession (some "") up2).2.2 = true := by
  refine ⟨?_, ?_, ensureSession_unset_sends up,
    ensureSession_none_ok status none hs2, rfl, ensureSession_emptyStr_sends⟩
  · cases up with
    | err => rfl
    | resp s h =>
      rcases hf with ⟨h1, h2⟩
      simp [ensureSession, pyTruthyStr, h1, h2]
  · cases up with
    | err => exact ⟨.transportError, rfl⟩
    | resp s h =>
      rcases hf with ⟨h1, h2⟩
      exact ⟨.httpError, by simp [ensureSession, pyTruthyStr, h1, h2]⟩

/-- C5 amended witness: a transport error leaves the session unset and
raised; a header-less 200 stores and returns the empty string. -/
theorem ensure_session_failure_modes_witness :
    (ensureSession none InitResp.err).1 = none
    ∧ (∃ e, (ensureSession none InitResp.err).2.1 = .error e)
    ∧ (ensureSession none InitResp.err).2.2 = true
    ∧ ensureSession none (InitResp.resp 200 none) = (some "", Except.ok "", true)
    ∧ pyTruthyStr (some "") = false
    ∧ ∀ up2, (ensureSession (some "") up2).2.2 = true :=
  ensure_session_failure_modes InitResp.err trivial 200 (by decide)

/-- C9 counterexample: a response body containing neither a `result`
field nor an `error` field is not surfaced as a decode error — the code
treats the missing `result` as an empty dict and returns a success with
empty text and no structured payload. -/
theorem decode_neither_field_cex :
    callToolBody (Json.obj []) = .ok (.dict "" Json.null) := rfl

/-- C9 amended: the decoder yields the error outcome whenever the body
has an `error` field, even when a `result` field is also present; a body
with neither field is treated as an empty result and yields success with
empty text and no structured payload (there is no malformed-body decode
error); on success the text is the newline-join, in returned order, of
exactly the content entries whose `type` is `"text"` (their `text` field,
defaulting to the empty string), and the structured payload is passed
through unmodified. -/
theorem decode_amended :
    (∀ fs errVal, List.lookup "error" fs = some errVal →
        callToolBody (Json.obj fs) = .ok (.tup errVal))
    ∧ (∀ fs, List.lookup "error" fs = none → List.lookup "result" fs = none →
        callToolBody (Json.obj fs) = .ok (.dict "" Json.null))
    ∧ (∀ fs rfs cs sVal, List.lookup "error" fs = none →
        List.lookup "result" fs = some (Json.obj rfs) →
        List.lookup "content" rfs = some (Json.arr cs) →
        List.lookup "structuredContent" rfs = some sVal →
        cs.all entryOk = true →
        callToolBody (Json.obj fs)
          = .ok (.dict (String.intercalate "\n" (textsSpec cs)) sVal)) := by
  refine ⟨fun fs errVal hE => ?_, fun fs h1 h2 => ?_, fun fs rfs cs sVal h1 h2 h3 h4 h5 => ?_⟩
  · simp [callToolBody, pyIn, hE, pyIndex]
  · simp [callToolBody, pyIn, h1, h2, extractTexts]
    rfl
  · simp [callToolBody, pyIn, h1, h2, h3, h4, extractTexts_all cs h5]

/-- C9 amended witness: a body with both fields yields the error tuple;
a body with neither yields the empty success; a well-formed success body
joins the two textual entries (skipping the image entry) and passes the
structured payload through. -/
theorem decode_amended_witness :
    callToolBody (Json.obj [("result", Json.null), ("error", Json.num 7)])
        = .ok (.tup (Json.num 7))
    ∧ callToolBody (Json.obj [("jsonrpc", Json.str "2.0")]) = .ok (.dict "" Json.null)
    ∧ callToolBody (Json.obj [("result", Json.obj [("content", Json.arr
        [Json.obj [("type", Json.str "text"), ("text", Json.str "alpha")],
         Json.obj [("type", Json.str "image")],
         Json.obj [("type", Json.str "text"), ("text", Json.str "beta")]]),
        ("structuredContent", Json.num 5)])])
        = .ok (.dict "alpha\nbeta" (Json.num 5)) :=
  ⟨decode_amended.1 _ _ rfl, decode_amended.2.1 _ rfl rfl,
   decode_amended.2.2 [("result", Json.obj [("content", Json.arr
        [Json.obj [("type", Json.str "text"), ("text", Json.str "alpha")],
         Json.obj [("type", Json.str "image")],
         Json.obj [("type", Json.str "text"), ("text", Json.str "beta")]]),
        ("structuredContent", Json.num 5)])]
     [("content", Json.arr
        [Json.obj [("type", Json.str "text"), ("text", Json.str "alpha")],
         Json.obj [("type", Json.str "image")],
         Json.obj [("type", Json.str "text"), ("text", Json.str "beta")]]),
      ("structuredContent", Json.num 5)]
     [Json.obj [("type", Json.str "text"), ("text", Json.str "alpha")],
      Json.obj [("type", Json.str "image")],
      Json.obj [("type", Json.str "text"), ("text", Json.str "beta")]]
     (Json.num 5) rfl rfl rfl rfl rfl⟩

/-- C2: when the upstream `dir2mcp.search` tool call returns a JSON-RPC
error (2xx response whose body has an `error` field), `POST /search`
returns HTTP 500 with the body `{"error": <that payload>}` — the payload
itself unmodified — and the call log contains only the search call: no
`dir2mcp.open_file` call (and hence no upstream contact beyond the
search) is made. -/
theorem search_error_passthrough (bf bfs : List (String × Json)) (errVal : Json)
    (status : Nat) (rest : List CallOutcome)
    (hq : ((List.lookup "query" bf).getD (Json.str "")).truthy = true)
    (hst : status < 400)
    (hE : List.lookup "error" bfs = some errVal) :
    searchRoute (Json.obj bf) (CallOutcome.resp status (Json.obj bfs) :: rest)
      = (.ok (Json.obj [("error", errVal)], 500),
         [("dir2mcp.search", Json.obj
            [("query", (List.lookup "query" bf).getD (Json.str "")),
             ("k", (List.lookup "k" bf).getD (Json.num 3))])]) := by
  have hcall : callToolRun (CallOutcome.resp status (Json.obj bfs)) = .ok (.tup errVal) := by
    have hc : ¬(400 ≤ status ∧ status < 600) := by omega
    simp [callToolRun, hc, callToolBody, pyIn, hE, pyIndex]
  simp [searchRoute, dictGet_pyOr_obj, hq, hcall]

/-- C2 witness: a search error with code -32000 is passed through as the
500 body, and the log shows exactly one call. -/
theorem search_error_passthrough_witness :
    searchRoute (Json.obj [("query", Json.str "foo")])
        [CallOutcome.resp 200 (Json.obj [("jsonrpc", Json.str "2.0"),
          ("error", Json.obj [("code", Json.num (-32000)), ("message", Json.str "boom")])])]
      = (.ok (Json.obj [("error", Json.obj
            [("code", Json.num (-32000)), ("message", Json.str "boom")])], 500),
         [("dir2mcp.search", Json.obj [("query", Json.str "foo"), ("k", Json.num 3)])]) :=
  search_error_passthrough [("query", Json.str "foo")] _ _ 200 [] (by decide) (by decide) rfl

/-- C4: a `POST /search` whose (object) body has no truthy `query` value
— the field missing, empty, or otherwise falsy — yields HTTP 400 with an
error body and an empty call log: no `_call_tool` invocation happens, and
since `_ensure_session` is only ever invoked from `_call_tool`, the
upstream is never contacted (no initialize, no tool call). -/
theorem search_missing_query (input : Json) (bf : List (String × Json))
    (outs : List CallOutcome)
    (hb : pyOr input (Json.obj []) = Json.obj bf)
    (hq : ((List.lookup "query" bf).getD (Json.str "")).truthy = false) :
    searchRoute input outs
      = (.ok (Json.obj [("error", Json.str "query is required")], 400), []) := by
  simp [searchRoute, hb, hq]

/-- C4 witness: the empty body gets the 400 error and an empty log. -/
theorem search_missing_query_witness :
    searchRoute (Json.obj []) []
      = (.ok (Json.obj [("error", Json.str "query is required")], 400), []) :=
  search_missing_query (Json.obj []) [] [] rfl (by decide)

/-- C3: when the upstream search succeeds and every per-hit
`dir2mcp.open_file` invocation returns normally — some as successes, some
as JSON-RPC error tuples — the request still succeeds with HTTP 200 and
the result contains one block per processed hit (the `hits[:3]` prefix,
via `enrOf`), and any hit whose `open_file` call returned the error tuple
gets the empty string as its content (`textOfOut`, the content function
appearing in each block, maps every error-tuple outcome to `""`): one bad
fetch never aborts the pipeline and never affects the other hits'
blocks. -/
theorem openfile_partial_failure (bf sf : List (String × Json)) (tx : String)
    (hs : List Json) (outs : List CallOutcome)
    (hq : ((List.lookup "query" bf).getD (Json.str "")).truthy = true)
    (hsr : callToolRun (outs.headD .raise) = .ok (.dict tx (Json.obj sf)))
    (hhits : (List.lookup "hits" sf).getD (Json.arr []) = Json.arr hs)
    (hh : (hs.take 3).all hitOkB = true)
    (hlen : (hs.take 3).length ≤ outs.tail.length)
    (ho : (outs.tail.take (hs.take 3).length).all outOkB = true) :
    (searchRoute (Json.obj bf) outs).1
      = .ok (Json.obj [("result", Json.str (String.intercalate "\n\n"
          ((List.zipWith enrOf (hs.take 3) outs.tail).map blockStr)))], 200)
    ∧ ∀ o p, callToolRun o = .ok (.tup p) → textOfOut o = "" := by
  refine ⟨?_, fun o p hp => textOfOut_tup o p hp⟩
  rw [searchRoute_success bf sf tx hs outs hq hsr hhits hh hlen ho]

/-- C3 witness: two hits; the first `open_file` succeeds with text
`alpha`, the second returns a JSON-RPC error tuple.  The request returns
200 with both blocks, the second with empty content. -/
theorem openfile_partial_failure_witness :
    (searchRoute (Json.obj [("query", Json.str "foo"), ("k", Json.num 2)])
      [CallOutcome.resp 200 (Json.obj [("result", Json.obj
         [("content", Json.arr []),
          ("structuredContent", Json.obj [("hits", Json.arr
            [Json.obj [("RelPath", Json.str "a.txt"), ("Score", Json.num (Rat.mk' 23 25 (by decide) (by decide))),
               ("Span", Json.obj [("Kind", Json.str "lines"),
                 ("StartLine", Json.num 10), ("EndLine", Json.num 20)])],
             Json.obj [("RelPath", Json.str "b.txt"), ("Score", Json.num (Rat.mk' 4 5 (by decide) (by decide)))]])])])]),
       CallOutcome.resp 200 (Json.obj [("result", Json.obj [("content", Json.arr
         [Json.obj [("type", Json.str "text"), ("text", Json.str "alpha")]])])]),
       CallOutcome.resp 200 (Json.obj [("error", Json.obj [("code", Json.num (-32000))])])]).1
      = .ok (Json.obj [("result", Json.str
          "=== a.txt (relevance: 92%) ===\nalpha\n\n=== b.txt (relevance: 80%) ===\n")], 200)
    ∧ ∀ o p, callToolRun o = .ok (.tup p) → textOfOut o = "" := by
  have h := openfile_partial_failure
    [("query", Json.str "foo"), ("k", Json.num 2)]
    [("hits", Json.arr
       [Json.obj [("RelPath", Json.str "a.txt"), ("Score", Json.num (Rat.mk' 23 25 (by decide) (by decide))),
          ("Span", Json.obj [("Kind", Json.str "lines"),
            ("StartLine", Json.num 10), ("EndLine", Json.num 20)])],
        Json.obj [("RelPath", Json.str "b.txt"), ("Score", Json.num (Rat.mk' 4 5 (by decide) (by decide)))]])]
    ""
    [Json.obj [("RelPath", Json.str "a.txt"), ("Score", Json.num (Rat.mk' 23 25 (by decide) (by decide))),
       ("Span", Json.obj [("Kind", Json.str "lines"),
         ("StartLine", Json.num 10), ("EndLine", Json.num 20)])],
     Json.obj [("RelPath", Json.str "b.txt"), ("Score", Json.num (Rat.mk' 4 5 (by decide) (by decide)))]]
    [CallOutcome.resp 200 (Json.obj [("result", Json.obj
       [("content", Json.arr []),
        ("structuredContent", Json.obj [("hits", Json.arr
          [Json.obj [("RelPath", Json.str "a.txt"), ("Score", Json.num (Rat.mk' 23 25 (by decide) (by decide))),
             ("Span", Json.obj [("Kind", Json.str "lines"),
               ("StartLine", Json.num 10), ("EndLine", Json.num 20)])],
           Json.obj [("RelPath", Json.str "b.txt"), ("Score", Json.num (Rat.mk' 4 5 (by decide) (by decide)))]])])])]),
     CallOutcome.resp 200 (Json.obj [("result", Json.obj [("content", Json.arr
       [Json.obj [("type", Json.str "text"), ("text", Json.str "alpha")]])])]),
     CallOutcome.resp 200 (Json.obj [("error", Json.obj [("code", Json.num (-32000))])])]
    (by decide) rfl rfl rfl (by decide) rfl
  exact ⟨h.1.trans rfl, h.2⟩

/-- C7: for a successful search, each route fetches content for at most
the first 3 hits — the `hits[:3]` prefix, in the order returned by
search, never re-sorted: the call log is the search call followed by one
`dir2mcp.open_file` call per processed hit, in hit order, with argument
dict `argsOf h` — `rel_path` and `max_chars = 3000` always, plus a
`start_line`/`end_line` pair (defaulting to 1 and 100) exactly when the
hit's span kind equals `"lines"` (see `mkArgsTotal`). -/
theorem enrichment_fetch_args (bf af sf : List (String × Json)) (tx : String)
    (hs : List Json) (outs : List CallOutcome)
    (hq : ((List.lookup "query" bf).getD (Json.str "")).truthy = true)
    (hq2 : ((List.lookup "question" af).getD (Json.str "")).truthy = true)
    (hsr : callToolRun (outs.headD .raise) = .ok (.dict tx (Json.obj sf)))
    (hhits : (List.lookup "hits" sf).getD (Json.arr []) = Json.arr hs)
    (hh : (hs.take 3).all hitOkB = true)
    (hlen : (hs.take 3).length ≤ outs.tail.length)
    (ho : (outs.tail.take (hs.take 3).length).all outOkB = true) :
    (searchRoute (Json.obj bf) outs).2
      = ("dir2mcp.search", Json.obj
          [("query", (List.lookup "query" bf).getD (Json.str "")),
           ("k", (List.lookup "k" bf).getD (Json.num 3))])
        :: (hs.take 3).map (fun h => ("dir2mcp.open_file", argsOf h))
    ∧ (askRoute (Json.obj af) outs).2
      = ("dir2mcp.search", Json.obj
          [("query", (List.lookup "question" af).getD (Json.str "")),
           ("k", Json.num 3)])
        :: (hs.take 3).map (fun h => ("dir2mcp.open_file", argsOf h)) :=
  ⟨congrArg Prod.snd (searchRoute_success bf sf tx hs outs hq hsr hhits hh hlen ho),
   congrArg Prod.snd (askRoute_success af sf tx hs outs hq2 hsr hhits hh hlen ho)⟩

/-- C7 witness: four hits returned; only the first three are fetched, in
order.  Hit 1 has a `lines` span (5-7), hit 2 has no span, hit 3 has a
non-`lines` span kind, so only hit 1 gets `start_line`/`end_line`; hit 4
is never fetched. -/
theorem enrichment_fetch_args_witness :
    (searchRoute (Json.obj [("query", Json.str "find")])
      [CallOutcome.resp 200 (Json.obj [("result", Json.obj
         [("structuredContent", Json.obj [("hits", Json.arr
           [Json.obj [("RelPath", Json.str "a.txt"), ("Span", Json.obj
              [("Kind", Json.str "lines"), ("StartLine", Json.num 5), ("EndLine", Json.num 7)])],
            Json.obj [("RelPath", Json.str "b.txt")],
            Json.obj [("RelPath", Json.str "c.txt"), ("Span", Json.obj
              [("Kind", Json.str "semantic")])],
            Json.obj [("RelPath", Json.str "d.txt")]])])])]),
       CallOutcome.resp 200 (Json.obj []),
       CallOutcome.resp 200 (Json.obj []),
       CallOutcome.resp 200 (Json.obj [])]).2
      = [("dir2mcp.search", Json.obj [("query", Json.str "find"), ("k", Json.num 3)]),
         ("dir2mcp.open_file", Json.obj [("rel_path", Json.str "a.txt"),
            ("max_chars", Json.num 3000), ("start_line", Json.num 5), ("end_line", Json.num 7)]),
         ("dir2mcp.open_file", Json.obj [("rel_path", Json.str "b.txt"),
            ("max_chars", Json.num 3000)]),
         ("dir2mcp.open_file", Json.obj [("rel_path", Json.str "c.txt"),
            ("max_chars", Json.num 3000)])]
    ∧ (askRoute (Json.obj [("question", Json.str "why")])
      [CallOutcome.resp 200 (Json.obj [("result", Json.obj
         [("structuredContent", Json.obj [("hits", Json.arr
           [Json.obj [("RelPath", Json.str "a.txt"), ("Span", Json.obj
              [("Kind", Json.str "lines"), ("StartLine", Json.num 5), ("EndLine", Json.num 7)])],
            Json.obj [("RelPath", Json.str "b.txt")],
            Json.obj [("RelPath", Json.str "c.txt"), ("Span", Json.obj
              [("Kind", Json.str "semantic")])],
            Json.obj [("RelPath", Json.str "d.txt")]])])])]),
       CallOutcome.resp 200 (Json.obj []),
       CallOutcome.resp 200 (Json.obj []),
       CallOutcome.resp 200 (Json.obj [])]).2
      = [("dir2mcp.search", Json.obj [("query", Json.str "why"), ("k", Json.num 3)]),
         ("dir2mcp.open_file", Json.obj [("rel_path", Json.str "a.txt"),
            ("max_chars", Json.num 3000), ("start_line", Json.num 5), ("end_line", Json.num 7)]),
         ("dir2mcp.open_file", Json.obj [("rel_path", Json.str "b.txt"),
            ("max_chars", Json.num 3000)]),
         ("dir2mcp.open_file", Json.obj [("rel_path", Json.str "c.txt"),
            ("max_chars", Json.num 3000)])] := by
  have h := enrichment_fetch_args
    [("query", Json.str "find")] [("question", Json.str "why")]
    [("hits", Json.arr
       [Json.obj [("RelPath", Json.str "a.txt"), ("Span", Json.obj
          [("Kind", Json.str "lines"), ("StartLine", Json.num 5), ("EndLine", Json.num 7)])],
        Json.obj [("RelPath", Json.str "b.txt")],
        Json.obj [("RelPath", Json.str "c.txt"), ("Span", Json.obj
          [("Kind", Json.str "semantic")])],
        Json.obj [("RelPath", Json.str "d.txt")]])]
    ""
    [Json.obj [("RelPath", Json.str "a.txt"), ("Span", Json.obj
       [("Kind", Json.str "lines"), ("StartLine", Json.num 5), ("EndLine", Json.num 7)])],
     Json.obj [("RelPath", Json.str "b.txt")],
     Json.obj [("RelPath", Json.str "c.txt"), ("Span", Json.obj
       [("Kind", Json.str "semantic")])],
     Json.obj [("RelPath", Json.str "d.txt")]]
    [CallOutcome.resp 200 (Json.obj [("result", Json.obj
       [("structuredContent", Json.obj [("hits", Json.arr
         [Json.obj [("RelPath", Json.str "a.txt"), ("Span", Json.obj
            [("Kind", Json.str "lines"), ("StartLine", Json.num 5), ("EndLine", Json.num 7)])],
          Json.obj [("RelPath", Json.str "b.txt")],
          Json.obj [("RelPath", Json.str "c.txt"), ("Span", Json.obj
            [("Kind", Json.str "semantic")])],
          Json.obj [("RelPath", Json.str "d.txt")]])])])]),
     CallOutcome.resp 200 (Json.obj []),
     CallOutcome.resp 200 (Json.obj []),
     CallOutcome.resp 200 (Json.obj [])]
    (by decide) (by decide) rfl rfl rfl (by decide) rfl
  exact ⟨h.1.trans rfl, h.2.trans rfl⟩

/-- C8: the composite result string.  For `/search`: one block per
enriched hit, in hit order, each `=== file (relevance: pct) ===` followed
by a newline and the content (`blockStr`, with `pctStr` rendering the
score as a rounded percentage), blocks joined by a blank line.  For
`/ask`: the original question is prefixed
(`Question: ...` + blank line + `Relevant document content:` + blank
line) and each block is `=== Source: file ===` followed by a newline and
the content (`blockOfAsk` via `contextOfAsk`). -/
theorem composite_formatting (bf af sf : List (String × Json)) (tx : String)
    (hs : List Json) (outs : List CallOutcome)
    (hq : ((List.lookup "query" bf).getD (Json.str "")).truthy = true)
    (hq2 : ((List.lookup "question" af).getD (Json.str "")).truthy = true)
    (hsr : callToolRun (outs.headD .raise) = .ok (.dict tx (Json.obj sf)))
    (hhits : (List.lookup "hits" sf).getD (Json.arr []) = Json.arr hs)
    (hh : (hs.take 3).all hitOkB = true)
    (hlen : (hs.take 3).length ≤ outs.tail.length)
    (ho : (outs.tail.take (hs.take 3).length).all outOkB = true) :
    searchRoute (Json.obj bf) outs
      = (.ok (Json.obj [("result", Json.str (String.intercalate "\n\n"
            ((List.zipWith enrOf (hs.take 3) outs.tail).map blockStr)))], 200),
         ("dir2mcp.search", Json.obj
            [("query", (List.lookup "query" bf).getD (Json.str "")),
             ("k", (List.lookup "k" bf).getD (Json.num 3))])
           :: (hs.take 3).map fun h => ("dir2mcp.open_file", argsOf h))
    ∧ askRoute (Json.obj af) outs
      = (.ok (Json.obj [("result", Json.str ("Question: "
            ++ pyStr ((List.lookup "question" af).getD (Json.str ""))
            ++ "\n\nRelevant document content:\n\n"
            ++ contextOfAsk (List.zipWith askEnrOf (hs.take 3) outs.tail)))], 200),
         ("dir2mcp.search", Json.obj
            [("query", (List.lookup "question" af).getD (Json.str "")),
             ("k", Json.num 3)])
           :: (hs.take 3).map fun h => ("dir2mcp.open_file", argsOf h)) :=
  ⟨searchRoute_success bf sf tx hs outs hq hsr hhits hh hlen ho,
   askRoute_success af sf tx hs outs hq2 hsr hhits hh hlen ho⟩

/-- C8 witness: two hits with scores 23/25 and 4/5 and fetched texts
`alpha` and `beta`: `/search` renders the scores as `92%` and `80%` in
two `===` blocks in hit order; `/ask` prefixes the question and labels
the same contents with `=== Source: ... ===`. -/
theorem composite_formatting_witness :
    searchRoute (Json.obj [("query", Json.str "foo")])
      [CallOutcome.resp 200 (Json.obj [("result", Json.obj
         [("structuredContent", Json.obj [("hits", Json.arr
           [Json.obj [("RelPath", Json.str "a.txt"),
              ("Score", Json.num (Rat.mk' 23 25 (by decide) (by decide))),
              ("Span", Json.obj [("Kind", Json.str "lines"),
                ("StartLine", Json.num 10), ("EndLine", Json.num 20)])],
            Json.obj [("RelPath", Json.str "b.txt"),
              ("Score", Json.num (Rat.mk' 4 5 (by decide) (by decide)))]])])])]),
       CallOutcome.resp 200 (Json.obj [("result", Json.obj [("content", Json.arr
         [Json.obj [("type", Json.str "text"), ("text", Json.str "alpha")]])])]),
       CallOutcome.resp 200 (Json.obj [("result", Json.obj [("content", Json.arr
         [Json.obj [("type", Json.str "text"), ("text", Json.str "beta")]])])])]
      = (.ok (Json.obj [("result", Json.str
          "=== a.txt (relevance: 92%) ===\nalpha\n\n=== b.txt (relevance: 80%) ===\nbeta")], 200),
         [("dir2mcp.search", Json.obj [("query", Json.str "foo"), ("k", Json.num 3)]),
          ("dir2mcp.open_file", Json.obj [("rel_path", Json.str "a.txt"),
             ("max_chars", Json.num 3000), ("start_line", Json.num 10), ("end_line", Json.num 20)]),
          ("dir2mcp.open_file", Json.obj [("rel_path", Json.str "b.txt"),
             ("max_chars", Json.num 3000)])])
    ∧ askRoute (Json.obj [("question", Json.str "when")])
      [CallOutcome.resp 200 (Json.obj [("result", Json.obj
         [("structuredContent", Json.obj [("hits", Json.arr
           [Json.obj [("RelPath", Json.str "a.txt"),
              ("Score", Json.num (Rat.mk' 23 25 (by decide) (by decide))),
              ("Span", Json.obj [("Kind", Json.str "lines"),
                ("StartLine", Json.num 10), ("EndLine", Json.num 20)])],
            Json.obj [("RelPath", Json.str "b.txt"),
              ("Score", Json.num (Rat.mk' 4 5 (by decide) (by decide)))]])])])]),
       CallOutcome.resp 200 (Json.obj [("result", Json.obj [("content", Json.arr
         [Json.obj [("type", Json.str "text"), ("text", Json.str "alpha")]])])]),
       CallOutcome.resp 200 (Json.obj [("result", Json.obj [("content", Json.arr
         [Json.obj [("type", Json.str "text"), ("text", Json.str "beta")]])])])]
      = (.ok (Json.obj [("result", Json.str
          "Question: when\n\nRelevant document content:\n\n=== Source: a.txt ===\nalpha\n\n=== Source: b.txt ===\nbeta")], 200),
         [("dir2mcp.search", Json.obj [("query", Json.str "when"), ("k", Json.num 3)]),
          ("dir2mcp.open_file", Json.obj [("rel_path", Json.str "a.txt"),
             ("max_chars", Json.num 3000), ("start_line", Json.num 10), ("end_line", Json.num 20)]),
          ("dir2mcp.open_file", Json.obj [("rel_path", Json.str "b.txt"),
             ("max_chars", Json.num 3000)])]) := by
  have h := composite_formatting
    [("query", Json.str "foo")] [("question", Json.str "when")]
    [("hits", Json.arr
       [Json.obj [("RelPath", Json.str "a.txt"),
          ("Score", Json.num (Rat.mk' 23 25 (by decide) (by decide))),
          ("Span", Json.obj [("Kind", Json.str "lines"),
            ("StartLine", Json.num 10), ("EndLine", Json.num 20)])],
        Json.obj [("RelPath", Json.str "b.txt"),
          ("Score", Json.num (Rat.mk' 4 5 (by decide) (by decide)))]])]
    ""
    [Json.obj [("RelPath", Json.str "a.txt"),
       ("Score", Json.num (Rat.mk' 23 25 (by decide) (by decide))),
       ("Span", Json.obj [("Kind", Json.str "lines"),
         ("StartLine", Json.num 10), ("EndLine", Json.num 20)])],
     Json.obj [("RelPath", Json.str "b.txt"),
       ("Score", Json.num (Rat.mk' 4 5 (by decide) (by decide)))]]
    [CallOutcome.resp 200 (Json.obj [("result", Json.obj
       [("structuredContent", Json.obj [("hits", Json.arr
         [Json.obj [("RelPath", Json.str "a.txt"),
            ("Score", Json.num (Rat.mk' 23 25 (by decide) (by decide))),
            ("Span", Json.obj [("Kind", Json.str "lines"),
              ("StartLine", Json.num 10), ("EndLine", Json.num 20)])],
          Json.obj [("RelPath", Json.str "b.txt"),
            ("Score", Json.num (Rat.mk' 4 5 (by decide) (by decide)))]])])])]),
     CallOutcome.resp 200 (Json.obj [("result", Json.obj [("content", Json.arr
       [Json.obj [("type", Json.str "text"), ("text", Json.str "alpha")]])])]),
     CallOutcome.resp 200 (Json.obj [("result", Json.obj [("content", Json.arr
       [Json.obj [("type", Json.str "text"), ("text", Json.str "beta")]])])])]
    (by decide) (by decide) rfl rfl rfl (by decide) rfl
  exact ⟨h.1.trans rfl, h.2.trans rfl⟩

/-- C10 counterexample: a truthy non-object request body is not treated
like an empty body — `body.get("query", "")` raises `AttributeError`
(surfaced as a server error), not the 400 missing-field response. -/
theorem nonobject_body_cex :
    searchRoute (Json.arr [Json.str "x"]) [] = (.error PyExc.attributeError, []) := rfl

/-- C10 amended: when a `POST /search` object body omits `k`, the bridge
invokes `dir2mcp.search` with `k = 3`; the `/ask` route always invokes
`dir2mcp.search` with `k = 3`, regardless of the body; a null — or any
falsy — request body is treated the same as an empty body, yielding the
400 missing-field response; but a truthy non-object body instead raises
`AttributeError` (the request fails with a server error), not the 400
response. -/
theorem route_defaults_amended :
    (∀ bf outs, ((List.lookup "query" bf).getD (Json.str "")).truthy = true →
       List.lookup "k" bf = none →
       (searchRoute (Json.obj bf) outs).2.head?
         = some ("dir2mcp.search", Json.obj
             [("query", (List.lookup "query" bf).getD (Json.str "")),
              ("k", Json.num 3)]))
    ∧ (∀ af outs, ((List.lookup "question" af).getD (Json.str "")).truthy = true →
       (askRoute (Json.obj af) outs).2.head?
         = some ("dir2mcp.search", Json.obj
             [("query", (List.lookup "question" af).getD (Json.str "")),
              ("k", Json.num 3)]))
    ∧ (∀ input outs, Json.truthy input = false →
       searchRoute input outs
         = (.ok (Json.obj [("error", Json.str "query is required")], 400), []))
    ∧ (∀ input outs, Json.truthy input = true → Json.isObj input = false →
       searchRoute input outs = (.error PyExc.attributeError, [])) := by
  refine ⟨fun bf outs hq hk => ?_, fun af outs hq => askRoute_log_head af outs hq,
    fun input outs ht => ?_, fun input outs ht hob => ?_⟩
  · have h := searchRoute_log_head bf outs hq
    rw [hk] at h
    simpa using h
  · simp only [searchRoute, pyOr, ht]
    rfl
  · cases input with
    | null => simp [Json.truthy] at ht
    | obj fs => simp [Json.isObj] at hob
    | bool b => simp [searchRoute, pyOr, ht, dictGet]
    | num q => simp [searchRoute, pyOr, ht, dictGet]
    | str s => simp [searchRoute, pyOr, ht, dictGet]
    | arr xs => simp [searchRoute, pyOr, ht, dictGet]

/-- C10 amended witness: a `/search` body without `k` produces a search
call with `k = 3`; an `/ask` body carrying `k: 9` still produces `k = 3`;
a null body gets the 400 response with no calls; a truthy string body
raises `AttributeError` with no calls. -/
theorem route_defaults_amended_witness :
    (searchRoute (Json.obj [("query", Json.str "foo")]) []).2.head?
      = some ("dir2mcp.search", Json.obj [("query", Json.str "foo"), ("k", Json.num 3)])
    ∧ (askRoute (Json.obj [("question", Json.str "why"), ("k", Json.num 9)]) []).2.head?
      = some ("dir2mcp.search", Json.obj [("query", Json.str "why"), ("k", Json.num 3)])
    ∧ searchRoute Json.null []
      = (.ok (Json.obj [("error", Json.str "query is required")], 400), [])
    ∧ searchRoute (Json.str "hi") [] = (.error PyExc.attributeError, []) := by
  refine ⟨?_, ?_, ?_, ?_⟩
  · exact (route_defaults_amended.1 [("query", Json.str "foo")] [] (by decide) rfl).trans rfl
  · exact (route_defaults_amended.2.1 [("question", Json.str "why"), ("k", Json.num 9)] []
      (by decide)).trans rfl
  · exact route_defaults_amended.2.2.1 Json.null [] rfl
  · exact route_defaults_amended.2.2.2 (Json.str "hi") [] (by decide) rfl

/-- C6: any interleaving of `_next_id` calls serializes on `_id_lock`,
modelled by `runNextIds`.  From any counter value, `n` calls return
`c+1, c+2, ..., c+n` in issuance order: each value is strictly greater
than every previously returned one, and the `n` values are distinct. -/
theorem next_id_strictly_increasing (c n : ℕ) :
    (runNextIds c n).2 = ((List.range n).map fun i => c + 1 + i)
    ∧ List.Pairwise (· < ·) (runNextIds c n).2
    ∧ (runNextIds c n).2.Nodup
    ∧ (runNextIds c n).2.length = n := by
  have hp : List.Pairwise (· < ·) (runNextIds c n).2 := by
    rw [runNextIds_snd]
    exact (List.pairwise_lt_range n).map _ fun a b h => by omega
  exact ⟨runNextIds_snd c n, hp, hp.imp Nat.ne_of_lt, by simp [runNextIds_snd]⟩

end Bridge
